import Mathlib

/-!
Shallow embedding of `torchtitan/parallelisms/parallelize_llama.py`.

Each definition mirrors one function (or one branch of a function) of the
source file; theorems at the end settle the specification claims about it.
-/

namespace ParallelizeLlama

/-! ## Selective activation checkpointing, operation-based policy

Source: `checkpoint_wrapper`, the `mode == "selective" and option == "op"`
branch, together with the module-level `no_recompute_list` set.
-/

/-- The compute-operation identifiers that occur in `no_recompute_list`,
plus an `other` constructor for every operation outside that set. -/
inductive Op where
  | aten_mm
  | aten_sdpa_efficient
  | aten_sdpa_flash
  | c10d_reduce_scatter
  | other : String → Op
deriving DecidableEq, Repr

/-- `no_recompute_list` from the source: ops whose outputs are saved
(matrix multiply, the two SDPA variants, reduce-scatter). -/
def no_recompute_list : List Op :=
  [Op.aten_mm, Op.aten_sdpa_efficient, Op.aten_sdpa_flash, Op.c10d_reduce_scatter]

/-- `_custom_policy` from the source: given the running matrix-multiply
count (the `meta[mm_count_key]` entry for the current mode) and the op
`func`, bump the count when `func` is a matrix multiply, then save the op
iff it is in `no_recompute_list` and is not an even-numbered matrix
multiply. Returns (new count, save decision). -/
def custom_policy (mm_count : Nat) (func : Op) : Nat × Bool :=
  let mm_count := if func = Op.aten_mm then mm_count + 1 else mm_count
  (mm_count,
    decide (func ∈ no_recompute_list) &&
      !(decide (func = Op.aten_mm) && decide (mm_count % 2 = 0)))

/-- Run `custom_policy` over a sequence of ops observed during one
backward pass, threading the matrix-multiply count, and collect the
per-op save decisions in order. A fresh pass starts at count 0 because
`selective_checkpointing_context_fn` allocates a fresh `defaultdict`. -/
def save_decisions (mm_count : Nat) : List Op → List Bool
  | [] => []
  | f :: fs =>
    let r := custom_policy mm_count f
    r.2 :: save_decisions r.1 fs

/-! ## Selective activation checkpointing, cadence-based policy

Source: `checkpoint_wrapper`, the `mode == "selective" and
selective_ac_option.isdigit()` branch. The visit counter is stored on the
function object (`checkpoint_wrapper._count`), initialised once with
`setdefault` and never reset.
-/

/-- One visit of the cadence branch: increment the counter, then wrap the
block iff `every_x_layer` is zero (`not every_x_layer`) or the new counter
is a multiple of `every_x_layer`. Returns (new counter, wrapped?). -/
def cadence_wrap (every_x_layer count : Nat) : Nat × Bool :=
  (count + 1, every_x_layer == 0 || (count + 1) % every_x_layer == 0)

/-- Visit `k` blocks in order through the cadence branch, starting from
counter value `count`, returning the wrapped-status sequence and the final
counter value. -/
def cadence_run_state (every_x_layer count : Nat) : Nat → List Bool × Nat
  | 0 => ([], count)
  | k + 1 =>
    let r := cadence_wrap every_x_layer count
    let rest := cadence_run_state every_x_layer r.1 k
    (r.2 :: rest.1, rest.2)

/-- Two successive orchestration passes of `k` blocks each with cadence
`every_x_layer`. The counter is function-attribute state: the second pass
starts from the counter value the first pass left behind (the source never
resets `checkpoint_wrapper._count`). -/
def two_pass_runs (every_x_layer k : Nat) : List Bool × List Bool :=
  let p1 := cadence_run_state every_x_layer 0 k
  let p2 := cadence_run_state every_x_layer p1.2 k
  (p1.1, p2.1)

/-! ## `checkpoint_wrapper`: full dispatch

The whole function, covering all four branches. The result is the pair
(was the module wrapped?, new visit counter); the cadence branch is the
only one that touches the counter, and the unknown-configuration branch
raises `NotImplementedError`.
-/

/-- Activation-checkpoint configuration (`job_config.activation_checkpoint`). -/
structure ACConfig where
  mode : String
  selective_ac_option : String
deriving DecidableEq, Repr

/-- Python `str.isdigit` on ASCII configuration strings: non-empty and
all characters are decimal digits. -/
def isdigit (s : String) : Bool :=
  s.length != 0 && s.toList.all Char.isDigit

/-- `checkpoint_wrapper` from the source. `count` is the value of the
function attribute `checkpoint_wrapper._count` before the call (0 when the
attribute is absent, via `setdefault`). Returns `(wrapped?, new count)`:
`wrapped? = true` models returning `ptd_checkpoint_wrapper(module, ...)`,
`wrapped? = false` models returning the module unchanged. -/
def checkpoint_wrapper (config : ACConfig) (count : Nat) :
    Except String (Bool × Nat) :=
  if config.mode = "selective" ∧ config.selective_ac_option = "op" then
    .ok (true, count)
  else if config.mode = "full" then
    .ok (true, count)
  else if config.mode = "selective" ∧ isdigit config.selective_ac_option then
    let every_x_layer := (config.selective_ac_option.toNat?).getD 0
    let r := cadence_wrap every_x_layer count
    .ok (r.2, r.1)
  else
    .error "Unknown AC type or AC config. Only selective op and selective layer ac implemented currently."

/-! ## Manual pipeline partitioning

Source: `apply_pipeline_parallelism_manual`, lines computing
`this_stage_layer_names` (including the two `assert` statements), and the
declared example input/output shapes.
-/

/-- Submodule names used by the manual stage partitioner. `layers i`
stands for the string `"layers.{i}"`. -/
inductive LayerName where
  | tok_embeddings
  | layers : Nat → LayerName
  | norm
  | output
deriving DecidableEq, Repr

/-- The `this_stage_layer_names` computation of
`apply_pipeline_parallelism_manual`: `layers_per_rank = L // pp_size`
contiguous layers starting at `layers_per_rank * pp_rank`; rank 0 prepends
the embedding and asserts `layers.0` is present; otherwise the last rank
appends `norm` and `output` and asserts `layers.1` is present. A failed
`assert` is an `AssertionError`, modelled as `Except.error`. -/
def this_stage_layer_names (L pp_size pp_rank : Nat) :
    Except String (List LayerName) :=
  let layers_per_rank := L / pp_size
  let layer_offset := layers_per_rank * pp_rank
  let names := (List.range layers_per_rank).map
    (fun i => LayerName.layers (i + layer_offset))
  if pp_rank = 0 then
    let names := LayerName.tok_embeddings :: names
    if LayerName.layers 0 ∈ names then .ok names
    else .error "AssertionError: layers.0 not in this_stage_layer_names"
  else if pp_rank = pp_size - 1 then
    let names := names ++ [LayerName.norm, LayerName.output]
    if LayerName.layers 1 ∈ names then .ok names
    else .error "AssertionError: layers.1 not in this_stage_layer_names"
  else .ok names

/-- Tensor element types appearing in the manual path's example tensors. -/
inductive DType where
  | int64
  | float32
deriving DecidableEq, Repr

/-- Declared example input/output of one manual pipeline stage: shape and
dtype of the `input` and `output` tensors passed to `ManualPipelineStage`. -/
structure StageIO where
  input_shape : List Nat
  input_dtype : DType
  output_shape : List Nat
  output_dtype : DType
deriving DecidableEq, Repr

/-- The declared-shape computation of `apply_pipeline_parallelism_manual`:
rank 0 takes token ids of shape `(batch_size, seq_len)` as `int64` and
declares output `(batch_size, seq_len // tp, dim)`; every other rank
declares input and output `(batch_size, seq_len // tp, dim)`. Shapes are
written down from the config, never inferred by running the model. -/
def stage_io (batch_size seq_len tp dim pp_rank : Nat) : StageIO :=
  if pp_rank = 0 then
    { input_shape := [batch_size, seq_len]
      input_dtype := .int64
      output_shape := [batch_size, seq_len / tp, dim]
      output_dtype := .float32 }
  else
    { input_shape := [batch_size, seq_len / tp, dim]
      input_dtype := .float32
      output_shape := [batch_size, seq_len / tp, dim]
      output_dtype := .float32 }

/-- Microbatch-related arguments the manual path passes to
`ManualPipelineStage`: `microbatches = parallel_dims.pp` (the source's
"heuristically == PP dim" line), and both example tensors are chunked with
`.chunk(microbatches)`. -/
structure ManualStageArgs where
  num_microbatches : Nat
  input_chunks : Nat
  output_chunks : Nat
deriving DecidableEq, Repr

/-- How `apply_pipeline_parallelism_manual` picks its microbatch counts. -/
def manual_stage_args (pp : Nat) : ManualStageArgs :=
  let microbatches := pp
  { num_microbatches := microbatches
    input_chunks := microbatches
    output_chunks := microbatches }

/-! ## Schedule and split-mode dispatch

Source: `build_pipeline_schedule` and the dispatch at the top of
`apply_pipeline_parallelism`.
-/

/-- The two pipeline schedule classes the source can construct. -/
inductive ScheduleKind where
  | schedule1F1B
  | scheduleGPipe
deriving DecidableEq, Repr

/-- A constructed pipeline schedule: its class and the `n_microbatches`
argument it was constructed with. -/
structure PipelineSchedule where
  kind : ScheduleKind
  n_microbatches : Nat
deriving DecidableEq, Repr

/-- `build_pipeline_schedule` from the source: dispatch on
`pipeline_parallel_schedule`, raising `NotImplementedError` for unknown
names, and construct the schedule with `n_microbatches = parallel_dims.pp`. -/
def build_pipeline_schedule (schedule_name : String) (pp : Nat) :
    Except String PipelineSchedule :=
  if schedule_name = "1f1b" then
    .ok { kind := .schedule1F1B, n_microbatches := pp }
  else if schedule_name = "gpipe" then
    .ok { kind := .scheduleGPipe, n_microbatches := pp }
  else
    .error (schedule_name ++ " is not implemented")

/-- The two pipeline split strategies. -/
inductive SplitMode where
  | manual
  | tracer
deriving DecidableEq, Repr

/-- The dispatch at the top of `apply_pipeline_parallelism`: select the
partitioning strategy from `pipeline_parallel_split_mode`, raising
`NotImplementedError` for any other name before any partitioning happens. -/
def split_mode_dispatch (mode : String) : Except String SplitMode :=
  if mode = "manual" then .ok .manual
  else if mode = "tracer" then .ok .tracer
  else .error (mode ++ " is not a valid split mode")

/-! ## `parallelize_llama`: the SPMD orchestrator

Source: `parallelize_llama`. The model state records what the function can
observe or mutate: per transformer block the attention head counts, whether
the tensor-parallel layer plan was applied, whether the block was wrapped
for activation checkpointing, and whether it was wrapped by `fully_shard`;
plus, on the model root, whether the top-level tensor-parallel plan
(embedding / output / norm) was applied and whether the root was wrapped by
`fully_shard`.
-/

/-- One transformer block as seen by `parallelize_llama`. -/
structure TransformerBlock where
  n_heads : Nat
  n_kv_heads : Nat
  tp_applied : Bool := false
  ac_wrapped : Bool := false
  fsdp_wrapped : Bool := false
deriving DecidableEq, Repr

/-- The model as seen by `parallelize_llama`. -/
structure Model where
  layers : List TransformerBlock
  top_tp_applied : Bool := false
  root_fsdp_wrapped : Bool := false
deriving DecidableEq, Repr

/-- The enabled flags and sizes `parallelize_llama` reads from
`parallel_dims`. -/
structure ParallelDimsCfg where
  tp_enabled : Bool
  tp : Nat
  dp_enabled : Bool
deriving DecidableEq, Repr

/-- The per-block mutation of the tensor-parallel branch: the source sets
`attn_layer.n_heads = attn_layer.n_heads // tp_mesh.size()` and likewise
for `n_kv_heads` (plain floor division, no divisibility check), then calls
`parallelize_module` on the block with the layer plan. -/
def tp_adjust_block (tp_size : Nat) (b : TransformerBlock) : TransformerBlock :=
  { b with
    n_heads := b.n_heads / tp_size
    n_kv_heads := b.n_kv_heads / tp_size
    tp_applied := true }

/-- The `parallel_dims.tp_enabled` branch of `parallelize_llama`: reject
`fused_rmsnorm`, apply the top-level plan (embedding, output, norm), then
adjust and parallelize every transformer block. -/
def tp_branch (norm_type : String) (tp_size : Nat) (m : Model) :
    Except String Model :=
  if norm_type = "fused_rmsnorm" then
    .error "fused_rmsnorm not yet compatible with TP. Please use layernorm or rmsnorm."
  else
    .ok { m with
          top_tp_applied := true
          layers := m.layers.map (tp_adjust_block tp_size) }

/-- The per-block body of the data-parallel loop: when the checkpoint mode
is `"full"` or `"selective"` the block first goes through
`checkpoint_wrapper` (which may wrap it, skip it, or raise), then
`fully_shard` wraps the block. Returns the updated block and the updated
visit counter. -/
def dp_wrap_block (ac : ACConfig) (count : Nat) (b : TransformerBlock) :
    Except String (TransformerBlock × Nat) :=
  if ac.mode = "full" ∨ ac.mode = "selective" then
    match checkpoint_wrapper ac count with
    | .error e => .error e
    | .ok (wrapped, count2) =>
      .ok ({ b with ac_wrapped := b.ac_wrapped || wrapped, fsdp_wrapped := true },
           count2)
  else
    .ok ({ b with fsdp_wrapped := true }, count)

/-- The data-parallel loop over `model.layers.named_children()`, threading
the checkpoint-wrapper visit counter through the blocks in order. -/
def dp_wrap_layers (ac : ACConfig) :
    Nat → List TransformerBlock → Except String (List TransformerBlock × Nat)
  | count, [] => .ok ([], count)
  | count, b :: bs =>
    match dp_wrap_block ac count b with
    | .error e => .error e
    | .ok (b2, count2) =>
      match dp_wrap_layers ac count2 bs with
      | .error e => .error e
      | .ok (bs2, count3) => .ok (b2 :: bs2, count3)

/-- The `parallel_dims.dp_enabled` branch of `parallelize_llama`: wrap every
transformer block (checkpoint wrapper then `fully_shard`), then wrap the
whole model once more with `fully_shard`. -/
def dp_branch (ac : ACConfig) (count : Nat) (m : Model) :
    Except String (Model × Nat) :=
  match dp_wrap_layers ac count m.layers with
  | .error e => .error e
  | .ok (ls, count2) =>
    .ok ({ m with layers := ls, root_fsdp_wrapped := true }, count2)

/-- `parallelize_llama` from the source: the tensor-parallel branch when
`tp_enabled`, then the data-parallel branch when `dp_enabled`, then return
the model. `count` is the ambient `checkpoint_wrapper._count` state. -/
def parallelize_llama (pd : ParallelDimsCfg) (norm_type : String)
    (ac : ACConfig) (count : Nat) (m : Model) : Except String (Model × Nat) :=
  let step1 : Except String Model :=
    if pd.tp_enabled then tp_branch norm_type pd.tp m else .ok m
  match step1 with
  | .error e => .error e
  | .ok m1 =>
    if pd.dp_enabled then dp_branch ac count m1
    else .ok (m1, count)

/-! ## Helper lemmas -/

/-- Closed form of a cadence run: starting from counter `c`, the `i`-th
visited block (0-based) is wrapped iff `N = 0` or `(c + i + 1) % N = 0`,
and the final counter is `c + k`. -/
theorem cadence_run_state_spec (N : Nat) :
    ∀ (k c : Nat),
      cadence_run_state N c k =
        ((List.range k).map (fun i => (N == 0 || (c + i + 1) % N == 0)), c + k) := by
  intro k
  induction k with
  | zero => intro c; simp [cadence_run_state]
  | succ k ih =>
    intro c
    rw [cadence_run_state, cadence_wrap, ih (c + 1), List.range_succ_eq_map]
    simp only [List.map_cons, List.map_map, Prod.mk.injEq, List.cons.injEq]
    refine ⟨⟨by simp, ?_⟩, by omega⟩
    apply List.map_congr_left
    intro i _
    have h : c + 1 + i + 1 = c + (i + 1) + 1 := by omega
    simp [Function.comp, Nat.succ_eq_add_one, h]

/-- Indexed form of `save_decisions`: the decision for the `i`-th op uses
the matrix-multiply count accumulated over the first `i + 1` ops. -/
theorem save_decisions_getD (f0 : Op) :
    ∀ (ops : List Op) (c i : Nat), i < ops.length →
      (save_decisions c ops).getD i false =
        (decide (ops.getD i f0 ∈ no_recompute_list) &&
          !(decide (ops.getD i f0 = Op.aten_mm) &&
            decide ((c + (ops.take (i + 1)).count Op.aten_mm) % 2 = 0))) := by
  intro ops
  induction ops with
  | nil => intro c i h; simp at h
  | cons f fs ih =>
    intro c i h
    match i with
    | 0 =>
      simp only [save_decisions, custom_policy, List.getD_cons_zero,
        List.take_succ_cons, List.take_zero, List.count_cons, List.count_nil]
      by_cases hf : f = Op.aten_mm <;> simp [hf]
    | j + 1 =>
      have hj : j < fs.length := by simpa using h
      by_cases hf : f = Op.aten_mm
      · simp only [save_decisions, custom_policy, hf, if_true, List.getD_cons_succ,
          List.take_succ_cons, List.count_cons, beq_self_eq_true, if_pos, eq_self_iff_true]
        rw [ih (c + 1) j hj]
        have harith :
            c + 1 + (fs.take (j + 1)).count Op.aten_mm =
              c + ((fs.take (j + 1)).count Op.aten_mm + 1) := by omega
        rw [harith]
      · simp only [save_decisions, custom_policy, hf, if_false, List.getD_cons_succ,
          List.take_succ_cons, List.count_cons, beq_iff_eq, if_neg, ite_false,
          Nat.add_zero, if_neg hf]
        rw [ih c j hj]

/-! ## Claim theorems -/

/-- Claim C1, code-bug evidence. On the spec's own example (L = 8 layers,
pp = 2), rank 0's stage is {embedding, layers 0..3} as claimed, but rank 1
does not return normally: the source's hardcoded
`assert "layers.1" in this_stage_layer_names` fails because the last
stage's slice is layers 4..7, so the partitioner raises `AssertionError`
instead of returning {layers 4..7, norm, output}. -/
theorem c1_manual_partition_spec_example :
    this_stage_layer_names 8 2 0 =
      Except.ok [LayerName.tok_embeddings, LayerName.layers 0, LayerName.layers 1,
        LayerName.layers 2, LayerName.layers 3] ∧
    this_stage_layer_names 8 2 1 =
      Except.error "AssertionError: layers.1 not in this_stage_layer_names" := by
  exact ⟨rfl, rfl⟩

/-- Claim C2, counterexample. With tensor-parallel size 2 and head count 3
(2 does not divide 3), the TP branch does not fail: it returns successfully
with the head counts floor-divided to 1, so the fields are mutated and no
invariant-violation error is raised. -/
theorem c2_counterexample :
    ¬(2 ∣ 3) ∧
    tp_branch "rmsnorm" 2 { layers := [{ n_heads := 3, n_kv_heads := 3 }] } =
      Except.ok { layers := [{ n_heads := 1, n_kv_heads := 1, tp_applied := true }],
                  top_tp_applied := true } := by
  exact ⟨by decide, rfl⟩

/-- Claim C2, amended. The TP branch unconditionally floor-divides each
block's `n_heads` and `n_kv_heads` by the tensor-parallel size, with no
divisibility check and no error (except the `fused_rmsnorm` norm check);
when the division is exact, both fields are divided exactly. -/
theorem c2_tp_head_division (tp : Nat) (norm_type : String) (m : Model)
    (b : TransformerBlock) (hnt : norm_type ≠ "fused_rmsnorm")
    (h1 : tp ∣ b.n_heads) (h2 : tp ∣ b.n_kv_heads) :
    tp_branch norm_type tp m =
      Except.ok
        { layers := m.layers.map (tp_adjust_block tp)
          top_tp_applied := true
          root_fsdp_wrapped := m.root_fsdp_wrapped } ∧
    (tp_adjust_block tp b).n_heads * tp = b.n_heads ∧
    (tp_adjust_block tp b).n_kv_heads * tp = b.n_kv_heads := by
  refine ⟨by simp [tp_branch, hnt], ?_, ?_⟩
  · simp [tp_adjust_block, Nat.div_mul_cancel h1]
  · simp [tp_adjust_block, Nat.div_mul_cancel h2]

/-- Witness for `c2_tp_head_division` at tp = 4, a block with 8 heads and
4 kv-heads. -/
theorem c2_tp_head_division_witness :
    tp_branch "rmsnorm" 4 { layers := [{ n_heads := 8, n_kv_heads := 4 }] } =
      Except.ok
        { layers := [({ n_heads := 8, n_kv_heads := 4 } :
            TransformerBlock)].map (tp_adjust_block 4)
          top_tp_applied := true
          root_fsdp_wrapped := false } ∧
    (tp_adjust_block 4 { n_heads := 8, n_kv_heads := 4 }).n_heads * 4 = 8 ∧
    (tp_adjust_block 4 { n_heads := 8, n_kv_heads := 4 }).n_kv_heads * 4 = 4 :=
  c2_tp_head_division 4 "rmsnorm" { layers := [{ n_heads := 8, n_kv_heads := 4 }] }
    { n_heads := 8, n_kv_heads := 4 } (by decide) (by decide) (by decide)

/-- Claim C3. Under the operation-based selective policy (fresh pass,
count 0), the `i`-th observed operation is saved iff it belongs to
`no_recompute_list` and is not a matrix multiply whose occurrence number
(count of matrix multiplies among the first `i + 1` ops) is even; in
particular the other three kinds are always saved, and ops outside the set
are always recomputed. -/
theorem c3_selective_op_save_rule (ops : List Op) (i : Nat) (h : i < ops.length) :
    (save_decisions 0 ops).getD i false = true ↔
      (ops.getD i (Op.other "") ∈ no_recompute_list ∧
        ¬(ops.getD i (Op.other "") = Op.aten_mm ∧
          ((ops.take (i + 1)).count Op.aten_mm) % 2 = 0)) := by
  rw [save_decisions_getD (Op.other "") ops 0 i h]
  simp only [Nat.zero_add, Bool.and_eq_true, Bool.not_eq_true', Bool.and_eq_false_iff,
    decide_eq_true_iff, decide_eq_false_iff_not]
  constructor
  · rintro ⟨hmem, hrest⟩
    refine ⟨hmem, ?_⟩
    rintro ⟨hmm, heven⟩
    rcases hrest with hnm | hodd
    · exact hnm hmm
    · exact hodd heven
  · rintro ⟨hmem, hrest⟩
    refine ⟨hmem, ?_⟩
    by_cases hmm : ops.getD i (Op.other "") = Op.aten_mm
    · exact Or.inr (fun heven => hrest ⟨hmm, heven⟩)
    · exact Or.inl hmm

/-- Witness for `c3_selective_op_save_rule`: four matrix multiplies in one
pass, index 1 (the second occurrence, which is recomputed). -/
theorem c3_selective_op_save_rule_witness :
    (save_decisions 0 [Op.aten_mm, Op.aten_mm, Op.aten_mm, Op.aten_mm]).getD 1 false
        = true ↔
      ([Op.aten_mm, Op.aten_mm, Op.aten_mm, Op.aten_mm].getD 1 (Op.other "")
          ∈ no_recompute_list ∧
        ¬([Op.aten_mm, Op.aten_mm, Op.aten_mm, Op.aten_mm].getD 1 (Op.other "")
            = Op.aten_mm ∧
          (([Op.aten_mm, Op.aten_mm, Op.aten_mm, Op.aten_mm].take 2).count
            Op.aten_mm) % 2 = 0)) :=
  c3_selective_op_save_rule [Op.aten_mm, Op.aten_mm, Op.aten_mm, Op.aten_mm] 1
    (by decide)

/-- Claim C4. Cadence-based selective checkpointing within one fresh pass
(counter starting at 0): the `i`-th visited block (0-based) is wrapped iff
the incremented counter `i + 1` is a multiple of N, or always when N = 0;
for N = 2 and five blocks the wrapped-status sequence is
[false, true, false, true, false]. -/
theorem c4_cadence_wrap_rule :
    (∀ N k : Nat, (cadence_run_state N 0 k).1 =
        (List.range k).map (fun i => (N == 0 || (i + 1) % N == 0))) ∧
    (cadence_run_state 2 0 5).1 = [false, true, false, true, false] := by
  constructor
  · intro N k
    rw [cadence_run_state_spec]
    simp
  · decide

/-- Claim C5, counterexample. The visit counter is function-attribute
state that is never reset: with cadence N = 2 and two successive passes of
five blocks over the same model, the second pass continues the count and
produces a different wrapped-status sequence than the first. -/
theorem c5_counterexample :
    (two_pass_runs 2 5).2 ≠ (two_pass_runs 2 5).1 := by decide

/-- Claim C5, amended. The cadence counter is process-global state stored
on the function object, initialised once via `setdefault` and never reset:
a pass that starts at counter value `c` wraps its `i`-th block iff N = 0 or
`(c + i + 1) % N = 0`, and leaves the counter at `c + k`, so the decision
depends on all earlier passes; for N = 2 and five blocks, the first pass
yields [false, true, false, true, false] and the second
[true, false, true, false, true]. -/
theorem c5_cadence_counter_is_global :
    (∀ N c k : Nat, cadence_run_state N c k =
        ((List.range k).map (fun i => (N == 0 || (c + i + 1) % N == 0)), c + k)) ∧
    two_pass_runs 2 5 =
      ([false, true, false, true, false], [true, false, true, false, true]) :=
  ⟨fun N c k => cadence_run_state_spec N k c, by decide⟩

/-- Claim C6, counterexample. With L = 2 layers and pp_size = 3 we have
`layers_per_rank = 2 // 3 = 0` and pp_size > 1, yet the middle rank 1 does
not fail: the source has no `layers_per_rank == 0` check, so rank 1
returns an empty stage (zero transformer layers) without any error. -/
theorem c6_counterexample :
    this_stage_layer_names 2 3 1 = Except.ok [] := by
  exact rfl

/-- Claim C6, amended. When pp_size > 1 and `layers_per_rank = L // pp_size`
is 0, there is no explicit configuration check: rank 0 and the last rank
fail only via the incidental `assert layers.0 / layers.1` statements
(an `AssertionError`, raised before any stage-local model is built), while
every intermediate rank proceeds without error and builds a stage with
zero transformer layers. -/
theorem c6_zero_layer_stage (L pp r : Nat) (hpp : 1 < pp)
    (hlpr : L / pp = 0) (hr : r < pp) :
    this_stage_layer_names L pp r =
      if r = 0 then
        Except.error "AssertionError: layers.0 not in this_stage_layer_names"
      else if r = pp - 1 then
        Except.error "AssertionError: layers.1 not in this_stage_layer_names"
      else Except.ok [] := by
  unfold this_stage_layer_names
  rw [hlpr]
  by_cases h0 : r = 0
  · simp [h0]
  · by_cases hl : r = pp - 1
    · simp [h0, hl]
    · simp [h0, hl]

/-- Witness for `c6_zero_layer_stage` at L = 2, pp_size = 3, rank 1. -/
theorem c6_zero_layer_stage_witness :
    this_stage_layer_names 2 3 1 =
      if (1 : Nat) = 0 then
        Except.error "AssertionError: layers.0 not in this_stage_layer_names"
      else if (1 : Nat) = 3 - 1 then
        Except.error "AssertionError: layers.1 not in this_stage_layer_names"
      else Except.ok [] :=
  c6_zero_layer_stage 2 3 1 (by decide) (by decide) (by decide)

/-- Claim C7. An unrecognized schedule name makes
`build_pipeline_schedule` fail with `NotImplementedError` (no schedule is
constructed), an unrecognized split mode makes the dispatch in
`apply_pipeline_parallelism` fail likewise (no partitioning happens), and
the recognized names select the corresponding schedule class or
partitioning strategy. -/
theorem c7_unknown_names_rejected (s m : String) (pp : Nat)
    (hs1 : s ≠ "1f1b") (hs2 : s ≠ "gpipe")
    (hm1 : m ≠ "manual") (hm2 : m ≠ "tracer") :
    build_pipeline_schedule s pp = Except.error (s ++ " is not implemented") ∧
    split_mode_dispatch m = Except.error (m ++ " is not a valid split mode") ∧
    build_pipeline_schedule "1f1b" pp =
      Except.ok { kind := .schedule1F1B, n_microbatches := pp } ∧
    build_pipeline_schedule "gpipe" pp =
      Except.ok { kind := .scheduleGPipe, n_microbatches := pp } ∧
    split_mode_dispatch "manual" = Except.ok SplitMode.manual ∧
    split_mode_dispatch "tracer" = Except.ok SplitMode.tracer := by
  refine ⟨?_, ?_, rfl, rfl, rfl, rfl⟩
  · simp [build_pipeline_schedule, hs1, hs2]
  · simp [split_mode_dispatch, hm1, hm2]

/-- Witness for `c7_unknown_names_rejected` at the spec's example name
"foo" for both the schedule and the split mode, with pp = 4. -/
theorem c7_unknown_names_rejected_witness :
    build_pipeline_schedule "foo" 4 =
      Except.error ("foo" ++ " is not implemented") ∧
    split_mode_dispatch "foo" =
      Except.error ("foo" ++ " is not a valid split mode") ∧
    build_pipeline_schedule "1f1b" 4 =
      Except.ok { kind := .schedule1F1B, n_microbatches := 4 } ∧
    build_pipeline_schedule "gpipe" 4 =
      Except.ok { kind := .scheduleGPipe, n_microbatches := 4 } ∧
    split_mode_dispatch "manual" = Except.ok SplitMode.manual ∧
    split_mode_dispatch "tracer" = Except.ok SplitMode.tracer :=
  c7_unknown_names_rejected "foo" "foo" 4
    (by decide) (by decide) (by decide) (by decide)

/-- Claim C8. Declared (not inferred) stage shapes in the manual path:
rank 0's input is an `int64` token-id tensor of shape
`(batch_size, seq_len)` and its declared output shape is
`(batch_size, seq_len // tp, dim)`; every non-first rank's declared input
shape equals the previous rank's declared output shape. -/
theorem c8_declared_stage_shapes (b s tp d r : Nat) (hr : r ≠ 0) :
    (stage_io b s tp d 0).input_shape = [b, s] ∧
    (stage_io b s tp d 0).input_dtype = DType.int64 ∧
    (stage_io b s tp d 0).output_shape = [b, s / tp, d] ∧
    (stage_io b s tp d r).input_shape = (stage_io b s tp d (r - 1)).output_shape := by
  refine ⟨by simp [stage_io], by simp [stage_io], by simp [stage_io], ?_⟩
  by_cases h0 : r - 1 = 0 <;> simp [stage_io, hr, h0]

/-- Witness for `c8_declared_stage_shapes` at batch 2, seq_len 8, tp 2,
dim 16, rank 3. -/
theorem c8_declared_stage_shapes_witness :
    (stage_io 2 8 2 16 0).input_shape = [2, 8] ∧
    (stage_io 2 8 2 16 0).input_dtype = DType.int64 ∧
    (stage_io 2 8 2 16 0).output_shape = [2, 8 / 2, 16] ∧
    (stage_io 2 8 2 16 3).input_shape = (stage_io 2 8 2 16 (3 - 1)).output_shape :=
  c8_declared_stage_shapes 2 8 2 16 3 (by decide)

/-- Claim C9. When both the tensor-parallel and data-parallel axes are
disabled, `parallelize_llama` is the identity: it returns the input model
unchanged (no block mutated, no head count divided, no checkpoint or FSDP
wrapping) and leaves the checkpoint visit counter untouched, for every
norm type and every activation-checkpoint configuration. -/
theorem c9_no_axes_identity (tp : Nat) (norm_type : String) (ac : ACConfig)
    (count : Nat) (m : Model) :
    parallelize_llama { tp_enabled := false, tp := tp, dp_enabled := false }
      norm_type ac count m = Except.ok (m, count) := by
  simp [parallelize_llama]

/-- Claim C10. Every schedule `build_pipeline_schedule` constructs has
`n_microbatches = parallel_dims.pp` (the function takes no caller-supplied
microbatch count), and the manual partitioning path likewise sets its
microbatch count and both example-tensor chunk counts to pp. -/
theorem c10_microbatches_eq_pp (name : String) (pp : Nat) (s : PipelineSchedule)
    (h : build_pipeline_schedule name pp = Except.ok s) :
    s.n_microbatches = pp ∧
    (manual_stage_args pp).num_microbatches = pp ∧
    (manual_stage_args pp).input_chunks = pp ∧
    (manual_stage_args pp).output_chunks = pp := by
  refine ⟨?_, rfl, rfl, rfl⟩
  by_cases h1 : name = "1f1b"
  · simp [build_pipeline_schedule, h1] at h
    rw [← h]
  · by_cases h2 : name = "gpipe"
    · simp [build_pipeline_schedule, h1, h2] at h
      rw [← h]
    · simp [build_pipeline_schedule, h1, h2] at h

/-- Witness for `c10_microbatches_eq_pp` on the "gpipe" schedule with
pp = 4. -/
theorem c10_microbatches_eq_pp_witness :
    ({ kind := .scheduleGPipe, n_microbatches := 4 } :
        PipelineSchedule).n_microbatches = 4 ∧
    (manual_stage_args 4).num_microbatches = 4 ∧
    (manual_stage_args 4).input_chunks = 4 ∧
    (manual_stage_args 4).output_chunks = 4 :=
  c10_microbatches_eq_pp "gpipe" 4 { kind := .scheduleGPipe, n_microbatches := 4 }
    (by rfl)

end ParallelizeLlama
